import Mathlib

/-!
Shallow embedding of `great_ape_safe/great_ape_safe.py` (class `GreatApeSafe`),
the transaction-assembly, gas-estimation, snapshot and hardware-wallet signing
helpers of the repository.  External collaborators (the gnosis SDK's
`multisend_from_receipts`, `preview`, `post_transaction`, `post_signature`,
`sign_with_frame`, the chain RPC reads) are modelled as function-valued
parameters; their observable effects are recorded in explicit result fields.
Python ints are `ℕ`/`ℤ`, Python floats are embedded as exact rationals, and
`decimal.Decimal` arithmetic is modelled with its default context precision of
28 significant digits (ROUND_HALF_EVEN).
-/

/-- The gnosis safe contract version, i.e. the numeric fields of
`safe_tx._safe_version.split('.')` (e.g. "1.3.0" becomes `⟨1, 3, 0⟩`). -/
structure SafeVersion where
  major : ℕ
  minor : ℕ
  patch : ℕ
deriving DecidableEq, Repr

/-- The gnosis-py `SafeTx` object: the fields `great_ape_safe.py` reads or
writes.  `data` is the batched multisend payload (a byte string), `signatures`
the collected signatures byte string. -/
structure SafeTx where
  toAddr : ℕ
  value : ℕ
  data : List ℕ
  operation : ℕ
  safe_tx_gas : ℤ
  signatures : List ℕ
  safe_nonce : ℕ
  safe_version : SafeVersion
deriving DecidableEq, Repr

/-- Python `int(...)` applied to a number: truncation toward zero.  The float
argument is embedded as an exact rational. -/
def pyInt (q : ℚ) : ℤ :=
  q.num.tdiv q.den

/-- Python truthiness of an optional string argument: `None` and `""` are
falsy, every other string is truthy. -/
def strTruthy : Option String → Bool
  | none => false
  | some s => s != ""

/-- Python truthiness of an optional nonnegative integer argument: `None` and
`0` are falsy, every other integer is truthy. -/
def natTruthy : Option ℕ → Bool
  | none => false
  | some n => n != 0

/-- Result of `_set_safe_tx_gas`: the updated `SafeTx`, plus whether a debug
log file was written (the `_dump_log` call guarded by `if log_name:`). -/
structure SetGasResult where
  tx : SafeTx
  logWritten : Bool
deriving DecidableEq, Repr

/-- `GreatApeSafe._set_safe_tx_gas`.  `previewGasUsed` stands for the external
`self.preview(safe_tx, events, call_trace, reset)` call and returns the preview
receipt's `gas_used`; the `events`, `call_trace` and `reset` parameters only
alter the preview's console output and are not modelled.  In the source:
`versions = safe_tx._safe_version.split('.')` followed by
`if int(versions[0]) <= 1 and int(versions[1]) < 3:`. -/
def setSafeTxGas (previewGasUsed : SafeTx → ℕ) (safe_tx : SafeTx)
    (log_name : Option String) (gas_coef : ℚ) : SetGasResult :=
  if safe_tx.safe_version.major ≤ 1 ∧ safe_tx.safe_version.minor < 3 then
    let gas_used := previewGasUsed safe_tx
    let safe_tx_gas : ℕ := max (gas_used * 64 / 63) (gas_used + 2500) + 500
    { tx := { safe_tx with
        safe_tx_gas := 35000 + pyInt (gas_coef * (safe_tx_gas : ℚ))
        signatures := [] }
      logWritten := strTruthy log_name }
  else
    { tx := { safe_tx with safe_tx_gas := 0 }
      logWritten := strTruthy log_name }

/-- Spec-side predicate (from the spec's words, for comparison with the code's
branch condition): the version is strictly before 1.3.0 in the usual
lexicographic version order. -/
def specStrictlyBefore_1_3_0 (v : SafeVersion) : Prop :=
  v.major < 1 ∨ (v.major = 1 ∧ v.minor < 3)

/-- A plain `SafeTx` used as concrete input in witnesses: version 1.1.1 (an old
safe) and one collected signature. -/
def txOld : SafeTx :=
  ⟨3, 0, [1, 2], 0, 7, [5, 5, 5], 9, ⟨1, 1, 1⟩⟩

/-- A plain `SafeTx` used as concrete input in witnesses: version 1.3.0 (a new
safe) and one collected signature. -/
def txNew : SafeTx :=
  ⟨3, 0, [1, 2], 0, 7, [5, 5, 5], 9, ⟨1, 3, 0⟩⟩

/-- A `SafeTx` whose safe version is 0.3.0 (strictly before 1.3.0, yet with
minor component 3). -/
def txV030 : SafeTx :=
  ⟨3, 0, [1, 2], 0, 7, [5, 5, 5], 9, ⟨0, 3, 0⟩⟩

/-- The environment of externals `post_safe_tx` interacts with: the recorded
contract-call receipts (represented by tags), the gnosis SDK's
`multisend_from_receipts`, and the preview's `gas_used`. -/
structure SafeEnv where
  receipts : List ℕ
  multisendFromReceipts : List ℕ → SafeTx
  previewGasUsed : SafeTx → ℕ

/-- Observable outcome of `post_safe_tx`: the `SafeTx` returned to the caller,
the transaction submitted to the gnosis api via `post_transaction` (`none` when
nothing was submitted), and whether a debug log file was written. -/
structure PostResult where
  returned : SafeTx
  posted : Option SafeTx
  logWritten : Bool
deriving DecidableEq, Repr

/-- `GreatApeSafe.post_safe_tx`.  The `events`, `call_trace`, `reset` and
`silent` parameters only alter console output or are forwarded to the preview
and are not modelled; `csv_destination` is forwarded to `print_snapshot`,
modelled separately below. -/
def post_safe_tx (env : SafeEnv) (skip_preview : Bool) (post : Bool)
    (replace_nonce : Option ℕ) (log_name : Option String) (gas_coef : ℚ) :
    PostResult :=
  let safe_tx := env.multisendFromReceipts env.receipts
  let r := if skip_preview then ({ tx := safe_tx, logWritten := false } : SetGasResult)
           else setSafeTxGas env.previewGasUsed safe_tx log_name gas_coef
  let safe_tx := if natTruthy replace_nonce
                 then { r.tx with safe_nonce := replace_nonce.getD 0 }
                 else r.tx
  { returned := safe_tx
    posted := if post then some safe_tx else none
    logWritten := r.logWritten }

/-- `GreatApeSafe._get_safe_tx_by_nonce`: the first pending transaction whose
`safe_nonce` equals the argument; `none` models the bare `raise` when no
pending transaction matches. -/
def getSafeTxByNonce (pending : List SafeTx) (safe_nonce : ℕ) : Option SafeTx :=
  pending.find? (fun safe_tx => safe_tx.safe_nonce == safe_nonce)

/-- `GreatApeSafe.sign_with_frame_hardware_wallet`: selects a pending
transaction (`self.pending_transactions[0]` when `safe_tx_nonce` is falsy),
signs it with the external `sign_with_frame` (the `signFn` parameter) and posts
the signature to the gnosis endpoint.  The result is the (transaction,
signature) pair posted via `post_signature`; `none` models an exception
(nonce not found, or no pending transactions). -/
def signWithFrameHardwareWallet (signFn : SafeTx → List ℕ)
    (pending : List SafeTx) (safe_tx_nonce : Option ℕ) :
    Option (SafeTx × List ℕ) :=
  (if natTruthy safe_tx_nonce then getSafeTxByNonce pending (safe_tx_nonce.getD 0)
   else pending.head?).map (fun safe_tx => (safe_tx, signFn safe_tx))

/-- `GreatApeSafe.execute_with_frame_hardware_wallet`: the pending transaction
selected and handed to `execute_transaction_with_frame`; `none` models an
exception (nonce not found, or no pending transactions). -/
def executeWithFrameHardwareWallet (pending : List SafeTx)
    (safe_tx_nonce : Option ℕ) : Option SafeTx :=
  if natTruthy safe_tx_nonce then getSafeTxByNonce pending (safe_tx_nonce.getD 0)
  else pending.head?

/-- A concrete environment used in counterexamples: the assembled multisend
transaction is `txOld`. -/
def envOld : SafeEnv :=
  ⟨[0, 1], fun _ => txOld, fun _ => 100000⟩

/-- A pending transaction with `safe_nonce = 1` (first in the queue). -/
def txNonce1 : SafeTx :=
  ⟨4, 0, [9], 0, 0, [], 1, ⟨1, 3, 0⟩⟩

/-- A pending transaction with `safe_nonce = 0` (second in the queue). -/
def txNonce0 : SafeTx :=
  ⟨5, 0, [8], 0, 0, [], 0, ⟨1, 3, 0⟩⟩

/-- brownie's `ETH_ADDRESS` constant, the native-coin pseudo-address. -/
def ETH_ADDRESS : ℕ :=
  0xEeeeeEeeeEeEeeEeEeEeeEEEeeeeEeeeeeeeEEeE

/-- A token contract as `take_snapshot` reads it: its address and the results
of its `symbol()` and `decimals()` calls. -/
structure TokenData where
  address : ℕ
  symbol : String
  decimals : ℕ
deriving DecidableEq, Repr

/-- One row of the snapshot DataFrame built by `take_snapshot` (columns
`address`, `symbol`, `mantissa_before`, `decimals`). -/
structure SnapRow where
  address : ℕ
  symbol : String
  mantissa_before : ℤ
  decimals : ℕ
deriving DecidableEq, Repr

/-- Chain-state oracles read by the snapshot code: `self.account.balance()`,
`token.balanceOf(...)` per token address, and the chain's native-coin label
(`labels[network.chain.id]`). -/
structure ChainEnv where
  ethBalance : ℤ
  balanceOf : ℕ → ℤ
  nativeLabel : String

/-- One iteration of `take_snapshot`'s token loop: append a row unless the
token address is already present in the `address` column. -/
def snapStep (env : ChainEnv) (df : List SnapRow) (token : TokenData) :
    List SnapRow :=
  if token.address ∈ df.map (fun row => row.address) then df
  else df ++ [⟨token.address, token.symbol, env.balanceOf token.address, token.decimals⟩]

/-- `GreatApeSafe.take_snapshot`: the native-coin row first (address
`ETH_ADDRESS`, chain label, account balance, 18 decimals), then one row per
distinct token address in the argument list. -/
def takeSnapshot (env : ChainEnv) (tokens : List TokenData) : List SnapRow :=
  tokens.foldl (snapStep env) [⟨ETH_ADDRESS, env.nativeLabel, env.ethBalance, 18⟩]

/-- Number of digits of the coefficient of `decimal.Decimal(n)` for a natural
number `n` (1 digit for 0). -/
def numDigits (n : ℕ) : ℕ :=
  Nat.log 10 n + 1

/-- ROUND_HALF_EVEN of the coefficient `n` to the nearest multiple of `p`,
returned as the quotient: round down when the remainder is below `p / 2`, up
when above, to the even quotient on a tie. -/
def roundCoeffHalfEven (n p : ℕ) : ℕ :=
  if 2 * (n % p) < p then n / p
  else if p < 2 * (n % p) then n / p + 1
  else if (n / p) % 2 = 0 then n / p
  else n / p + 1

/-- Python `decimal.Decimal` rounding of an exact integer result to the default
context precision of 28 significant digits, ROUND_HALF_EVEN: the coefficient is
rounded to the nearest multiple of `10 ^ (digits - 28)` (ties to the even
quotient), the sign is carried separately; integers of at most 28 digits are
unchanged. -/
def decRound28 (x : ℤ) : ℤ :=
  if numDigits x.natAbs ≤ 28 then x
  else
    (if x < 0 then -1 else 1) *
      ((roundCoeffHalfEven x.natAbs (10 ^ (numDigits x.natAbs - 28)) *
          10 ^ (numDigits x.natAbs - 28) : ℕ) : ℤ)

/-- The balance delta `print_snapshot` computes for one row:
`(df['mantissa_after'] - df['mantissa_before']) / 10 ** df['decimals']` in
Python `decimal.Decimal` arithmetic.  The subtraction of the two exact integer
Decimals is rounded to the context precision of 28 significant digits; the
subsequent division by the power of ten `10 ** Decimal(decimals)` only shifts
the exponent of a coefficient that already fits the precision, hence is
exact. -/
def decimalDelta (mantissa_before mantissa_after : ℤ) (decimals : ℕ) : ℚ :=
  ((decRound28 (mantissa_after - mantissa_before) : ℤ) : ℚ) / 10 ^ decimals

/-- The `mantissa_after` value `print_snapshot` reads at print time for a
snapshot row: the account balance for the native-coin row, `balanceOf`
otherwise. -/
def mantissaAfter (env : ChainEnv) (row : SnapRow) : ℤ :=
  if row.address = ETH_ADDRESS then env.ethBalance else env.balanceOf row.address

/-- One row of `print_snapshot`'s output table, after re-indexing by symbol and
narrowing to the columns of interest (the claims only concern `symbol` and
`balance_delta`). -/
structure DeltaRow where
  symbol : String
  balance_delta : ℚ
deriving DecidableEq, Repr

/-- The output row `print_snapshot` derives from one snapshot row. -/
def rowDelta (env : ChainEnv) (row : SnapRow) : DeltaRow :=
  ⟨row.symbol, decimalDelta row.mantissa_before (mantissaAfter env row) row.decimals⟩

/-- `print_snapshot`'s delta table before filtering: one entry per snapshot
row, in order. -/
def snapshotDeltas (env : ChainEnv) (snap : List SnapRow) : List DeltaRow :=
  snap.map (rowDelta env)

/-- The table `print_snapshot` prints: `df = df[df['balance_delta'] != 0]`. -/
def printedTable (env : ChainEnv) (snap : List SnapRow) : List DeltaRow :=
  (snapshotDeltas env snap).filter (fun row => row.balance_delta != 0)

/-- The CSV header `print_snapshot` writes when `csv_destination` is given. -/
def csvHeader : List String :=
  ["token", "claimable_amount"]

/-- The CSV body `print_snapshot` writes when `csv_destination` is given: the
symbol (index) and `balance_delta` column of the filtered table. -/
def csvRows (env : ChainEnv) (snap : List SnapRow) : List (String × ℚ) :=
  (printedTable env snap).map (fun row => (row.symbol, row.balance_delta))

/-- A chain environment used in witnesses: account balance 3, every token
balance 5. -/
def smallEnv : ChainEnv :=
  ⟨3, fun _ => 5, "ETH"⟩

/-- A snapshot row used in witnesses: token at address 7, one decimal,
mantissa 1 before the operation sequence. -/
def smallRow : SnapRow :=
  ⟨7, "TKN", 1, 1⟩

/-- A chain environment whose token balances exceed 28 significant digits. -/
def bigEnv : ChainEnv :=
  ⟨0, fun _ => 10 ^ 28 + 1, "ETH"⟩

/-- A snapshot row for a token with balance 0 at snapshot time and 0 decimals. -/
def bigRow : SnapRow :=
  ⟨7, "BIG", 0, 0⟩

/-- The token behind `bigRow`: address 7, symbol "BIG", `decimals() = 0`. -/
def bigToken : TokenData :=
  ⟨7, "BIG", 0⟩

/-- The chain environment at snapshot time for the C4 counterexample: all
balances 0. -/
def bigEnvBefore : ChainEnv :=
  ⟨0, fun _ => 0, "ETH"⟩

/-- C8: whenever `_set_safe_tx_gas` takes the old-version branch it resets
`safe_tx.signatures` to the empty byte string and (for a nonnegative gas
coefficient) assigns a nonzero gas estimate; in the other branch the
signatures field is left unchanged. -/
theorem setSafeTxGas_signatures_reset (previewGasUsed : SafeTx → ℕ)
    (safe_tx : SafeTx) (log_name : Option String) (gas_coef : ℚ)
    (hc : 0 ≤ gas_coef) :
    (safe_tx.safe_version.major ≤ 1 ∧ safe_tx.safe_version.minor < 3 →
      (setSafeTxGas previewGasUsed safe_tx log_name gas_coef).tx.signatures = [] ∧
      (setSafeTxGas previewGasUsed safe_tx log_name gas_coef).tx.safe_tx_gas ≠ 0) ∧
    (¬ (safe_tx.safe_version.major ≤ 1 ∧ safe_tx.safe_version.minor < 3) →
      (setSafeTxGas previewGasUsed safe_tx log_name gas_coef).tx.signatures
        = safe_tx.signatures) := by
  have hpy : ∀ q : ℚ, 0 ≤ q → 0 ≤ pyInt q := by
    intro q hq
    have hnum : 0 ≤ q.num := Rat.num_nonneg.mpr hq
    have hden : (0 : ℤ) ≤ (q.den : ℤ) := Int.natCast_nonneg _
    exact Int.tdiv_nonneg hnum hden
  constructor
  · intro h
    rw [setSafeTxGas, if_pos h]
    refine ⟨rfl, ?_⟩
    have h0 : 0 ≤ pyInt (gas_coef *
        ((max (previewGasUsed safe_tx * 64 / 63) (previewGasUsed safe_tx + 2500) + 500 : ℕ) : ℚ)) :=
      hpy _ (mul_nonneg hc (by positivity))
    simp only
    omega
  · intro h
    rw [setSafeTxGas, if_neg h]

/-- Witness for C8 at concrete inputs: an old safe (version 1.1.1) has its
signatures wiped, a new safe (version 1.3.0) keeps them. -/
theorem setSafeTxGas_signatures_reset_witness :
    (setSafeTxGas (fun _ => 100000) txOld none (3 / 2)).tx.signatures = [] ∧
    (setSafeTxGas (fun _ => 100000) txNew none (3 / 2)).tx.signatures
      = txNew.signatures :=
  ⟨((setSafeTxGas_signatures_reset (fun _ => 100000) txOld none (3 / 2)
      (by norm_num)).1 (by decide)).1,
   (setSafeTxGas_signatures_reset (fun _ => 100000) txNew none (3 / 2)
      (by norm_num)).2 (by decide)⟩

/-- C1: the version comparison in `_set_safe_tx_gas` is a code bug: version
0.3.0 is strictly before 1.3.0, so per the claim (and the code's own comment,
"only needed on older versions of gnosis safes (<1.3.0)") the legacy estimate
`35_000 + int(gas_coef * (max(gas_used * 64 // 63, gas_used + 2500) + 500))`
(nonzero) should be assigned; the code instead sets `safe_tx_gas` to 0 because
its condition demands `int(versions[1]) < 3` regardless of the major version. -/
theorem setSafeTxGas_version_condition_code_bug :
    specStrictlyBefore_1_3_0 ⟨0, 3, 0⟩ ∧
    (setSafeTxGas (fun _ => 100000) txV030 none (3 / 2)).tx.safe_tx_gas = 0 ∧
    35000 + pyInt ((3 / 2) *
      ((max (100000 * 64 / 63) (100000 + 2500) + 500 : ℕ) : ℚ)) ≠ 0 := by
  have hmax : (max (100000 * 64 / 63) (100000 + 2500) + 500 : ℕ) = 103000 := by
    decide
  refine ⟨Or.inl (by norm_num), by decide, ?_⟩
  rw [hmax]
  have h2 : ((3 : ℚ) / 2) * ((103000 : ℕ) : ℚ) = 154500 := by norm_num
  rw [h2, pyInt]
  norm_num

/-- Helper: `_set_safe_tx_gas` writes only the `safe_tx_gas` and `signatures`
fields of the transaction, and reports a log write exactly when the log name is
truthy. -/
theorem setSafeTxGas_fields (previewGasUsed : SafeTx → ℕ) (safe_tx : SafeTx)
    (log_name : Option String) (gas_coef : ℚ) :
    (setSafeTxGas previewGasUsed safe_tx log_name gas_coef).tx.toAddr = safe_tx.toAddr ∧
    (setSafeTxGas previewGasUsed safe_tx log_name gas_coef).tx.value = safe_tx.value ∧
    (setSafeTxGas previewGasUsed safe_tx log_name gas_coef).tx.data = safe_tx.data ∧
    (setSafeTxGas previewGasUsed safe_tx log_name gas_coef).tx.operation = safe_tx.operation ∧
    (setSafeTxGas previewGasUsed safe_tx log_name gas_coef).tx.safe_nonce = safe_tx.safe_nonce ∧
    (setSafeTxGas previewGasUsed safe_tx log_name gas_coef).tx.safe_version = safe_tx.safe_version ∧
    (setSafeTxGas previewGasUsed safe_tx log_name gas_coef).logWritten = strTruthy log_name := by
  unfold setSafeTxGas
  split <;> exact ⟨rfl, rfl, rfl, rfl, rfl, rfl, rfl⟩

/-- C2: `post_safe_tx` submits, via `post_transaction`, exactly the assembled
`SafeTx` it returns when `post` is true and nothing when `post` is false; the
returned transaction carries the multisend payload assembled from the recorded
receipts. -/
theorem post_safe_tx_post_effect (env : SafeEnv) (skip_preview post : Bool)
    (replace_nonce : Option ℕ) (log_name : Option String) (gas_coef : ℚ) :
    (post_safe_tx env skip_preview post replace_nonce log_name gas_coef).posted
      = (if post
         then some (post_safe_tx env skip_preview post replace_nonce log_name
                      gas_coef).returned
         else none) ∧
    (post_safe_tx env skip_preview post replace_nonce log_name gas_coef).returned.data
      = (env.multisendFromReceipts env.receipts).data := by
  constructor
  · cases post <;> rfl
  · have h := setSafeTxGas_fields env.previewGasUsed
      (env.multisendFromReceipts env.receipts) log_name gas_coef
    unfold post_safe_tx
    cases skip_preview <;> cases hrn : natTruthy replace_nonce <;> simp_all

/-- C7: for every recorded receipt sequence, `post_safe_tx` returns the single
multisig-batched transaction built by one `multisend_from_receipts` call: its
destination, value, batched payload, operation and safe version are those of
the multisend transaction, however many contract calls were recorded. -/
theorem post_safe_tx_single_batched_tx (env : SafeEnv) (skip_preview post : Bool)
    (replace_nonce : Option ℕ) (log_name : Option String) (gas_coef : ℚ) :
    (post_safe_tx env skip_preview post replace_nonce log_name gas_coef).returned.toAddr
        = (env.multisendFromReceipts env.receipts).toAddr ∧
    (post_safe_tx env skip_preview post replace_nonce log_name gas_coef).returned.value
        = (env.multisendFromReceipts env.receipts).value ∧
    (post_safe_tx env skip_preview post replace_nonce log_name gas_coef).returned.data
        = (env.multisendFromReceipts env.receipts).data ∧
    (post_safe_tx env skip_preview post replace_nonce log_name gas_coef).returned.operation
        = (env.multisendFromReceipts env.receipts).operation ∧
    (post_safe_tx env skip_preview post replace_nonce log_name gas_coef).returned.safe_version
        = (env.multisendFromReceipts env.receipts).safe_version := by
  have h := setSafeTxGas_fields env.previewGasUsed
    (env.multisendFromReceipts env.receipts) log_name gas_coef
  unfold post_safe_tx
  cases skip_preview <;> cases hrn : natTruthy replace_nonce <;> simp_all

/-- C6 counterexample: with `skip_preview=True` a log name is provided (and
truthy) yet no debug log file is written, because `_dump_log` is only reachable
through `_set_safe_tx_gas`, which the preview skip bypasses. -/
theorem post_safe_tx_log_skipped_despite_log_name :
    strTruthy (some "myLog") = true ∧
    (post_safe_tx envOld true true none (some "myLog") (3 / 2)).logWritten
      = false := by
  exact ⟨rfl, rfl⟩

/-- C6 amended: `post_safe_tx` writes the debug log file if and only if a
non-empty `log_name` is provided AND `skip_preview` is false. -/
theorem post_safe_tx_logWritten (env : SafeEnv) (skip_preview post : Bool)
    (replace_nonce : Option ℕ) (log_name : Option String) (gas_coef : ℚ) :
    (post_safe_tx env skip_preview post replace_nonce log_name gas_coef).logWritten
      = (!skip_preview && strTruthy log_name) := by
  have h := setSafeTxGas_fields env.previewGasUsed
    (env.multisendFromReceipts env.receipts) log_name gas_coef
  unfold post_safe_tx
  cases skip_preview <;> simp_all

/-- C3 counterexample: with `safe_tx_nonce = 0` given and a pending transaction
with `safe_nonce = 0` present (second in the queue), the code signs and posts
the FIRST pending transaction (whose nonce is 1), not the one with nonce 0,
because `if safe_tx_nonce:` treats 0 as absent. -/
theorem signWithFrame_nonce_zero_selects_first :
    signWithFrameHardwareWallet (fun _ => [7]) [txNonce1, txNonce0] (some 0)
      = some (txNonce1, [7]) ∧
    txNonce1.safe_nonce ≠ 0 ∧ txNonce0.safe_nonce = 0 := by
  exact ⟨rfl, by decide, rfl⟩

/-- C3 amended: when a NONZERO `safe_tx_nonce` is given,
`sign_with_frame_hardware_wallet` signs and posts the first pending transaction
whose `safe_nonce` equals it, and raises (no signature posted) when no pending
transaction has that nonce; when no nonce is given it signs and posts the first
pending transaction. -/
theorem signWithFrame_selection (signFn : SafeTx → List ℕ)
    (pending : List SafeTx) (n : ℕ) (hn : n ≠ 0) :
    signWithFrameHardwareWallet signFn pending (some n)
        = (getSafeTxByNonce pending n).map (fun safe_tx => (safe_tx, signFn safe_tx)) ∧
    ((∀ safe_tx ∈ pending, safe_tx.safe_nonce ≠ n) →
      signWithFrameHardwareWallet signFn pending (some n) = none) ∧
    signWithFrameHardwareWallet signFn pending none
        = pending.head?.map (fun safe_tx => (safe_tx, signFn safe_tx)) := by
  have ht : natTruthy (some n) = true := by
    simp [natTruthy, hn]
  refine ⟨?_, ?_, rfl⟩
  · unfold signWithFrameHardwareWallet
    rw [ht]
    rfl
  · intro h
    unfold signWithFrameHardwareWallet
    rw [ht]
    have : getSafeTxByNonce pending n = none := by
      unfold getSafeTxByNonce
      rw [List.find?_eq_none]
      intro x hx
      simpa using h x hx
    simp [this]

/-- Witness for C3 (amended) at concrete inputs: nonce 1 selects the pending
transaction with nonce 1, and nonce 7 (present nowhere) raises. -/
theorem signWithFrame_selection_witness :
    signWithFrameHardwareWallet (fun _ => [7]) [txNonce1, txNonce0] (some 1)
        = (getSafeTxByNonce [txNonce1, txNonce0] 1).map
            (fun safe_tx => (safe_tx, (fun _ => [7]) safe_tx)) ∧
    signWithFrameHardwareWallet (fun _ => [7]) [txNonce1, txNonce0] (some 7)
        = none :=
  ⟨(signWithFrame_selection (fun _ => [7]) [txNonce1, txNonce0] 1 (by decide)).1,
   (signWithFrame_selection (fun _ => [7]) [txNonce1, txNonce0] 7 (by decide)).2.1
     (by decide)⟩

/-- C10: a nonce argument equal to 0 behaves exactly as an absent nonce:
`post_safe_tx` with `replace_nonce=0` leaves the safe nonce unreplaced,
and the two frame hardware-wallet flows with `safe_tx_nonce=0` select the
first pending transaction rather than looking up nonce 0. -/
theorem nonce_zero_behaves_as_none (env : SafeEnv) (skip_preview post : Bool)
    (log_name : Option String) (gas_coef : ℚ) (signFn : SafeTx → List ℕ)
    (pending : List SafeTx) :
    post_safe_tx env skip_preview post (some 0) log_name gas_coef
        = post_safe_tx env skip_preview post none log_name gas_coef ∧
    signWithFrameHardwareWallet signFn pending (some 0)
        = signWithFrameHardwareWallet signFn pending none ∧
    signWithFrameHardwareWallet signFn pending (some 0)
        = pending.head?.map (fun safe_tx => (safe_tx, signFn safe_tx)) ∧
    executeWithFrameHardwareWallet pending (some 0)
        = executeWithFrameHardwareWallet pending none ∧
    executeWithFrameHardwareWallet pending (some 0) = pending.head? := by
  exact ⟨rfl, rfl, rfl, rfl, rfl⟩

/-- Helper: an integer whose absolute value is below `10^28` (at most 28
digits) is unchanged by the Decimal context rounding. -/
theorem decRound28_eq_self {x : ℤ} (h : x.natAbs < 10 ^ 28) : decRound28 x = x := by
  have hle : numDigits x.natAbs ≤ 28 := by
    rw [numDigits]
    rcases Nat.eq_zero_or_pos x.natAbs with h0 | h0
    · simp [h0]
    · have := Nat.log_lt_of_lt_pow (by omega : x.natAbs ≠ 0) h
      omega
  rw [decRound28, if_pos hle]

/-- Helper: `10^28 + 1` has 29 significant digits. -/
theorem log10_pow28_add_one : Nat.log 10 (10 ^ 28 + 1) = 28 :=
  Nat.log_eq_of_pow_le_of_lt_pow (by norm_num) (by norm_num)

/-- C4 counterexample: the token recorded by `take_snapshot` at address 7, with
`mantissa_before = 0`, 0 decimals and `mantissa_after = 10^28 + 1`, gets the
delta `10^28` from `print_snapshot` (Python Decimal rounds the 29-digit
difference to the 28-significant-digit context precision), not the exact
`(mantissa_after - mantissa_before) / 10^decimals = 10^28 + 1`. -/
theorem print_snapshot_delta_not_exact :
    bigRow ∈ takeSnapshot bigEnvBefore [bigToken] ∧
    (rowDelta bigEnv bigRow).balance_delta
      ≠ ((mantissaAfter bigEnv bigRow : ℚ) - (bigRow.mantissa_before : ℚ))
          / 10 ^ bigRow.decimals := by
  constructor
  · simp [takeSnapshot, snapStep, bigEnvBefore, bigToken, bigRow, ETH_ADDRESS]
  · have hma : mantissaAfter bigEnv bigRow = 10 ^ 28 + 1 := by
      rw [mantissaAfter]
      rw [if_neg (by decide)]
      rfl
    have habs : ((10 ^ 28 + 1 : ℤ) - 0).natAbs = 10 ^ 28 + 1 := by norm_num
    have hdig : numDigits ((10 ^ 28 + 1 : ℤ) - 0).natAbs = 29 := by
      rw [habs, numDigits, log10_pow28_add_one]
    have hcoeff : roundCoeffHalfEven (10 ^ 28 + 1) (10 ^ (29 - 28)) = 10 ^ 27 := by
      rw [roundCoeffHalfEven]
      norm_num
    have hd : decRound28 ((10 ^ 28 + 1 : ℤ) - 0) = 10 ^ 28 := by
      rw [decRound28, hdig, if_neg (by norm_num), habs, hcoeff]
      norm_num
    have hval : (rowDelta bigEnv bigRow).balance_delta = (10 ^ 28 : ℚ) := by
      show decimalDelta bigRow.mantissa_before (mantissaAfter bigEnv bigRow)
          bigRow.decimals = (10 ^ 28 : ℚ)
      rw [hma]
      unfold decimalDelta
      show ((decRound28 ((10 ^ 28 + 1 : ℤ) - 0) : ℤ) : ℚ) / 10 ^ (0 : ℕ) = _
      rw [hd]
      norm_num
    rw [hval, hma]
    norm_num [bigRow]

/-- C4 amended: for every snapshot row whose mantissa difference fits the
Decimal default context precision (absolute value below `10^28`, i.e. at most
28 significant digits), `print_snapshot` computes the balance delta as exactly
`(mantissa_after - mantissa_before) / 10^decimals` in exact arithmetic; larger
differences are first rounded to 28 significant digits. -/
theorem print_snapshot_delta_exact (env : ChainEnv) (snap : List SnapRow)
    (h : ∀ row ∈ snap,
      ((mantissaAfter env row) - row.mantissa_before).natAbs < 10 ^ 28) :
    snapshotDeltas env snap
      = snap.map (fun row =>
          ⟨row.symbol,
           ((mantissaAfter env row : ℚ) - (row.mantissa_before : ℚ))
             / 10 ^ row.decimals⟩) := by
  unfold snapshotDeltas
  refine List.map_congr_left ?_
  intro row hrow
  unfold rowDelta decimalDelta
  rw [decRound28_eq_self (h row hrow)]
  norm_cast

/-- Witness for C4 (amended) at a concrete input: mantissa 1 before, 5 after,
one decimal; the delta is exactly (5 - 1) / 10. -/
theorem print_snapshot_delta_exact_witness :
    (∀ row ∈ [smallRow],
      ((mantissaAfter smallEnv row) - row.mantissa_before).natAbs < 10 ^ 28) ∧
    snapshotDeltas smallEnv [smallRow]
      = [smallRow].map (fun row =>
          ⟨row.symbol,
           ((mantissaAfter smallEnv row : ℚ) - (row.mantissa_before : ℚ))
             / 10 ^ row.decimals⟩) :=
  ⟨by decide, print_snapshot_delta_exact smallEnv [smallRow] (by decide)⟩

/-- C5: when a `csv_destination` is given, `print_snapshot` writes the header
`["token", "claimable_amount"]` and exactly one row, holding the symbol and the
balance delta, per snapshotted token whose delta is nonzero; zero-delta tokens
appear neither in the CSV rows nor in the printed table. -/
theorem print_snapshot_csv_spec (env : ChainEnv) (snap : List SnapRow) :
    csvHeader = ["token", "claimable_amount"] ∧
    csvRows env snap
      = (snap.filter (fun row => (rowDelta env row).balance_delta != 0)).map
          (fun row => (row.symbol, (rowDelta env row).balance_delta)) ∧
    (csvRows env snap).all (fun entry => entry.2 != 0) ∧
    (printedTable env snap).all (fun row => row.balance_delta != 0) := by
  refine ⟨rfl, ?_, ?_, ?_⟩
  · unfold csvRows printedTable snapshotDeltas
    rw [List.filter_map, List.map_map]
    rfl
  · rw [List.all_eq_true]
    intro entry hentry
    unfold csvRows at hentry
    obtain ⟨row, hrow, rfl⟩ := List.mem_map.mp hentry
    unfold printedTable at hrow
    simpa using List.of_mem_filter hrow
  · rw [List.all_eq_true]
    intro row hrow
    unfold printedTable at hrow
    have hp := List.of_mem_filter hrow
    exact hp

/-- Helper: the token loop of `take_snapshot` preserves distinctness of the
address column and only ever appends rows to the accumulator. -/
theorem snapStep_fold_invariant (env : ChainEnv) (tokens : List TokenData) :
    ∀ df : List SnapRow, (df.map (fun row => row.address)).Nodup →
      ((tokens.foldl (snapStep env) df).map (fun row => row.address)).Nodup ∧
      ∃ rest, tokens.foldl (snapStep env) df = df ++ rest := by
  induction tokens with
  | nil =>
    intro df hd
    exact ⟨hd, [], by simp⟩
  | cons t ts ih =>
    intro df hd
    rw [List.foldl_cons]
    by_cases hmem : t.address ∈ df.map (fun row => row.address)
    · have hstep : snapStep env df t = df := by
        rw [snapStep, if_pos hmem]
      rw [hstep]
      exact ih df hd
    · have hstep : snapStep env df t
          = df ++ [⟨t.address, t.symbol, env.balanceOf t.address, t.decimals⟩] := by
        rw [snapStep, if_neg hmem]
      rw [hstep]
      have hd2 : ((df ++ [(⟨t.address, t.symbol, env.balanceOf t.address,
          t.decimals⟩ : SnapRow)]).map (fun row => row.address)).Nodup := by
        rw [List.map_append, List.nodup_append]
        refine ⟨hd, by simp, ?_⟩
        simpa [List.disjoint_singleton] using hmem
      obtain ⟨h1, rest, h2⟩ := ih _ hd2
      refine ⟨h1, (⟨t.address, t.symbol, env.balanceOf t.address,
        t.decimals⟩ : SnapRow) :: rest, ?_⟩
      rw [h2]
      simp

/-- C9: after every `take_snapshot` call the snapshot's first row is the
native coin (address `ETH_ADDRESS`, the account balance, 18 decimals) and the
address column is pairwise distinct, duplicates in the input token list
notwithstanding. -/
theorem takeSnapshot_head_nodup (env : ChainEnv) (tokens : List TokenData) :
    (takeSnapshot env tokens).head?
        = some ⟨ETH_ADDRESS, env.nativeLabel, env.ethBalance, 18⟩ ∧
    ((takeSnapshot env tokens).map (fun row => row.address)).Nodup := by
  obtain ⟨h1, rest, h2⟩ := snapStep_fold_invariant env tokens
    [⟨ETH_ADDRESS, env.nativeLabel, env.ethBalance, 18⟩] (by simp)
  exact ⟨by rw [takeSnapshot, h2]; rfl, h1⟩
